import Mathlib

/-!
Shallow embedding of the epistemic-uncertainty scoring engine
(`monailabel/tasks/scoring/epistemic_labeled.py`, class `EpistemicScoringWithLabels`).

Pure Python values are mapped to Lean data; numpy arrays are modelled as a
shape plus a flattened list of rationals (float arithmetic is modelled over
`ℚ`); side effects (log warnings, inference invocations, datastore metadata
updates) are collected in an explicit event trace; Python exceptions are
modelled with `Except`.
-/

/-- Association-list lookup, first match wins (Python `dict` access order is
irrelevant here since keys are unique in the modelled dicts). -/
def alookup {α : Type} : List (String × α) → String → Option α
  | [], _ => none
  | (k, v) :: rest, key => if k = key then some v else alookup rest key

/-- Python `mapping.get(key, default)`. -/
def dictGet {α : Type} (m : List (String × α)) (key : String) (default : α) : α :=
  (alookup m key).getD default

/-- Split a list into consecutive chunks of size `m` (last chunk may be
shorter).  Used to address the leading axis of a flattened array. -/
def chunkBy {α : Type} (m : Nat) : List α → List (List α)
  | [] => []
  | x :: xs =>
    if m = 0 then [x :: xs]
    else (x :: xs).take m :: chunkBy m (xs.drop (m - 1))
termination_by l => l.length
decreasing_by
  simp only [List.length_drop, List.length_cons]
  omega

/-- Python slice `l[:k]` where `k` may be negative: a negative bound counts
from the end of the list. -/
def pySliceTo {α : Type} (k : Int) (l : List α) : List α :=
  if 0 ≤ k then l.take k.toNat else l.take ((l.length : Int) + k).toNat

/-- Python `int()` applied to a float: truncation toward zero. -/
def pyInt (q : ℚ) : Int :=
  if 0 ≤ q then ⌊q⌋ else -⌊-q⌋

/-- Python `round(x, 3)` (3-decimal rounding; the tie-breaking convention is
immaterial to the properties proved here). -/
def round3 (q : ℚ) : ℚ :=
  ((round (q * 1000) : ℤ) : ℚ) / 1000

/-- Arithmetic mean of a list of rationals (`0` on the empty list, standing in
for numpy's NaN which cannot arise in the properties proved here). -/
def listMean (xs : List ℚ) : ℚ :=
  xs.sum / (xs.length : ℚ)

/-- Sample variance (the `n - 1` normalisation used by torch/monai variance;
`0` for fewer than two samples). -/
def sampleVariance (xs : List ℚ) : ℚ :=
  if xs.length ≤ 1 then 0
  else (xs.map (fun x => (x - listMean xs) ^ 2)).sum / ((xs.length : ℚ) - 1)

/-- Modelled from the spec: the thresholding step of monai's `VarianceMetric`
(constructed with `threshold=0.0005` at source line 53; the metric itself
lives in the external `monai` package, not in this repository): variance
values below the epsilon are suppressed to `0`. -/
def applyThreshold (v : ℚ) : ℚ :=
  if v < 5 / 10000 then 0 else v

/-- A numpy array: a shape and the row-major flattened data. -/
structure NpArray where
  shape : List Nat
  data : List ℚ
deriving DecidableEq

/-- Python exceptions that the modelled code can raise. -/
inductive PyErr where
  | keyError : String → PyErr
  | valueError : String → PyErr
  | nameError : String → PyErr
deriving DecidableEq

/-- Models `np.stack` (source line 150): raises `ValueError` on an empty sequence or
on mismatched member shapes, otherwise adds a new leading axis. -/
def npStack : List NpArray → Except PyErr NpArray
  | [] => Except.error (PyErr.valueError "need at least one array to stack")
  | a :: rest =>
    if rest.all (fun b => b.shape == a.shape) then
      Except.ok ⟨(a :: rest).length :: a.shape, ((a :: rest).map NpArray.data).flatten⟩
    else Except.error (PyErr.valueError "all input arrays must have the same shape")

/-- Models `np.squeeze` (source line 151): removes all axes of extent 1; the
flattened data is unchanged. -/
def npSqueeze (a : NpArray) : NpArray :=
  ⟨a.shape.filter (fun d => d ≠ 1), a.data⟩

/-- The slice `a[:, 1:, ...]` of source lines 153/155: drops index 0 of the
second axis (the background channel). Identity on arrays of rank below 2
(the source only applies it under a rank guard). -/
def dropFirstChannel (a : NpArray) : NpArray :=
  match a.shape with
  | n :: c :: rest =>
    ⟨n :: (c - 1) :: rest,
      ((chunkBy (c * rest.prod) a.data).map (fun blk => blk.drop rest.prod)).flatten⟩
  | s => ⟨s, a.data⟩

/-- Models `np.expand_dims(a, axis=0)` (source lines 57-58): prepends a singleton
axis; the flattened data is unchanged. -/
def expandDims0 (a : NpArray) : NpArray :=
  ⟨1 :: a.shape, a.data⟩

/-- Modelled from the spec: monai's `VarianceMetric(include_background=True,
threshold=0.0005, spatial_map=True)` applied at source line 55 (the metric
implementation is in the external `monai` package, not in this repository).
Per spec §4.1 it computes a per-voxel variance across the leading trial axis
with a thresholding epsilon, producing a spatial uncertainty map. -/
def varianceMetricArr (a : NpArray) : NpArray :=
  match a.shape with
  | [] => ⟨[], a.data⟩
  | _n :: rest =>
    let m := rest.prod
    let members := chunkBy m a.data
    ⟨rest, (List.range m).map (fun j =>
      applyThreshold (sampleVariance (members.map (fun mem => mem.getD j 0))))⟩

/-- Models `EpistemicScoringWithLabels.variance_volume` (source lines 51-59): casts
to float (identity over `ℚ`), applies the variance metric, and for 3-D tasks
reinserts two leading singleton axes. -/
def variance_volume (dimension : Nat) (vol_input : NpArray) : NpArray :=
  let variance := varianceMetricArr vol_input
  if dimension = 3 then expandDims0 (expandDims0 variance) else variance

/-- Models `np.nanmean` (source line 158); over `ℚ` there are no NaN entries to
skip. -/
def npNanmean (a : NpArray) : ℚ :=
  listMean a.data

/-- A value stored in an image's metadata mapping. -/
inductive MetaVal where
  | intV : Int → MetaVal
  | ratV : ℚ → MetaVal
  | strV : String → MetaVal
deriving DecidableEq

/-- Python `==` between metadata values: numeric values compare across
int/float, values of unrelated types compare unequal. -/
def pyEqMeta : MetaVal → MetaVal → Bool
  | MetaVal.intV a, MetaVal.intV b => a == b
  | MetaVal.intV a, MetaVal.ratV b => (a : ℚ) == b
  | MetaVal.ratV a, MetaVal.intV b => a == (b : ℚ)
  | MetaVal.ratV a, MetaVal.ratV b => a == b
  | MetaVal.strV a, MetaVal.strV b => a == b
  | _, _ => false

/-- Observable side effects of one `score` run, in program order: the
`simulation_size` warning log (line 83), each inference invocation
(line 142), and each datastore metadata update (line 176). -/
inductive Event where
  | warnSimSize : Event
  | inferCall : String → Nat → Event
  | updateImageInfo : String → List (String × MetaVal) → Event
deriving DecidableEq

/-- Is the event a datastore metadata update? -/
def isUpdate : Event → Bool
  | Event.updateImageInfo _ _ => true
  | _ => false

/-- Is the event the simulation-size warning? -/
def isWarn : Event → Bool
  | Event.warnSimSize => true
  | _ => false

/-- Is the event an inference invocation? -/
def isInfer : Event → Bool
  | Event.inferCall _ _ => true
  | _ => false

/-- The value returned by one `self.infer_task(request=request)` call
(line 142): either a Python dict (whose entries may map a key to `None`,
modelled by `Option NpArray`) or a non-dict value such as `None`. -/
inductive InferData where
  | dictD : List (String × Option NpArray) → InferData
  | nonDict : InferData
deriving DecidableEq

/-- The datastore collaborator (spec §6): unlabeled image ids, per-image
metadata, and image URIs. `update_image_info` is an effect and is recorded
in the event trace instead. -/
structure Datastore where
  unlabeled_images : List String
  image_info : String → List (String × MetaVal)
  image_uri : String → String

/-- The constructor state of `EpistemicScoringWithLabels` together with the
relevant attributes of its `infer_task` collaborator (`get_path()`,
`output_label_key`, `dimension`). -/
structure TaskCfg where
  path : Option String
  output_label_key : String
  dimension : Nat
  max_samples : Int
  simulation_size : Int
  key_output_entropy : String
  key_output_ts : String

/-- The scoring request mapping: each recognized key is either present or
absent (`request.get` supplies the default). -/
structure ScoringRequest where
  max_samples : Option Int
  simulation_size : Option Int
  max_workers : Option Int
  multi_gpu : Option Bool
  gpus : Option String
  device : Option String

/-- Ambient environment: the filesystem view used for the model file
(lines 72-73), host CPU/GPU counts, and the two wall-clock readings
(lines 86 and 125). -/
structure Env where
  file_exists : String → Bool
  file_mtime : String → ℚ
  cpu_count : Nat
  cuda_count : Nat
  t_start : ℚ
  t_end : ℚ

/-- The run summary (lines 121-126). -/
structure Summary where
  total : Nat
  skipped : Nat
  executed : Nat
  latency : ℚ
deriving DecidableEq

/-- Line 143: `pred = data[self.infer_task.output_label_key] if
isinstance(data, dict) else None`. A dict missing the key raises
`KeyError`; a non-dict value yields `None`; a dict may also map the key to
`None` itself. -/
def extractPred (output_label_key : String) : InferData → Except PyErr (Option NpArray)
  | InferData.dictD m =>
    match alookup m output_label_key with
    | some v => Except.ok v
    | none => Except.error (PyErr.keyError output_label_key)
  | InferData.nonDict => Except.ok none

/-- The inference loop of lines 140-148 over the given iteration indices:
records one `inferCall` event per invocation, collects non-`None`
predictions, and aborts at the first uncaught exception. -/
def simLoop (output_label_key : String) (inferFn : String → Nat → InferData)
    (uri : String) (image_id : String) :
    List Nat → List Event × Except PyErr (List NpArray)
  | [] => ([], Except.ok [])
  | i :: rest =>
    match extractPred output_label_key (inferFn uri i) with
    | Except.error e => ([Event.inferCall image_id i], Except.error e)
    | Except.ok none =>
      let r := simLoop output_label_key inferFn uri image_id rest
      (Event.inferCall image_id i :: r.1, r.2)
    | Except.ok (some p) =>
      let r := simLoop output_label_key inferFn uri image_id rest
      (Event.inferCall image_id i :: r.1, r.2.map (fun ps => p :: ps))

/-- Lines 150-176 applied to the collected ensemble: stack (line 150),
squeeze (line 151), background-channel drop under the rank guards
(lines 152-155), variance reduction (lines 157-158).  Line 161 then
evaluates the undefined name `ground_truth_label`, so control always raises
`NameError` here; the metadata update of lines 173-176 is unreachable, and
the `Unit` success value is never produced. -/
def run_scoring_result (cfg : TaskCfg) : Except PyErr (List NpArray) → Except PyErr Unit
  | Except.error e => Except.error e
  | Except.ok accum_unl_outputs =>
    match npStack accum_unl_outputs with
    | Except.error e => Except.error e
    | Except.ok stacked =>
      let accum_numpy := npSqueeze stacked
      let accum_numpy :=
        if cfg.dimension = 3 then
          if accum_numpy.shape.length > 4 then dropFirstChannel accum_numpy else accum_numpy
        else
          if accum_numpy.shape.length > 3 then dropFirstChannel accum_numpy else accum_numpy
      let entropy := npNanmean (variance_volume cfg.dimension accum_numpy)
      let _ := entropy
      -- line 161: `lq_score = self.get_label_quality_score(pred, ground_truth_label)`
      -- `ground_truth_label` is bound nowhere in the module, so evaluating the
      -- call's arguments raises NameError before the datastore update of
      -- line 176 can run.
      Except.error (PyErr.nameError "ground_truth_label")

/-- Models `EpistemicScoringWithLabels.run_scoring` (lines 132-176): the per-image
scoring routine.  Returns the event trace and the raised exception (the
routine can never return normally, see `run_scoring_result`). -/
def run_scoring (cfg : TaskCfg) (inferFn : String → Nat → InferData) (ds : Datastore)
    (image_id : String) (simulation_size : Int) (model_ts : Int) :
    List Event × Except PyErr Unit :=
  let _ := model_ts
  let uri := ds.image_uri image_id
  let sim := simLoop cfg.output_label_key inferFn uri image_id
    (List.range simulation_size.toNat)
  (sim.1, run_scoring_result cfg sim.2)

/-- Lines 72-73: the model version tag is the truncated modification time of
the model file when `get_path()` is set (non-`None`, non-empty) and the file
exists, and the sentinel `1` otherwise. -/
def model_version_tag (path : Option String) (file_exists : String → Bool)
    (file_mtime : String → ℚ) : Int :=
  match path with
  | none => 1
  | some model_file =>
    if model_file ≠ "" ∧ file_exists model_file then pyInt (file_mtime model_file) else 1

/-- Lines 81-82: `simulation_size` below 2 is raised to 2. -/
def resolveSimulationSize (simulation_size : Int) : Int :=
  if simulation_size < 2 then 2 else simulation_size

/-- Line 83: the warning accompanying the `simulation_size` correction. -/
def warnList (simulation_size : Int) : List Event :=
  if simulation_size < 2 then [Event.warnSimSize] else []

/-- Lines 88-95: one pass over the unlabeled images, counting as skipped
every image whose stored `"epistemic_ts"` metadata (default `0` when absent;
note the source reads this literal key, not `self.key_output_ts`) equals
`model_ts`, and keeping the rest in order. -/
def filterImages (image_info : String → List (String × MetaVal)) (model_ts : Int) :
    List String → Nat × List String
  | [] => (0, [])
  | image_id :: rest =>
    let prev_ts := dictGet (image_info image_id) "epistemic_ts" (MetaVal.intV 0)
    let r := filterImages image_info model_ts rest
    if pyEqMeta prev_ts (MetaVal.intV model_ts) then (r.1 + 1, r.2)
    else (r.1, image_id :: r.2)

/-- Lines 88-96: the work list — the filtered images, truncated by the
Python slice `[:max_samples]` when `max_samples` is truthy (nonzero). -/
def computeWorkList (image_info : String → List (String × MetaVal)) (model_ts : Int)
    (unlabeled_images : List String) (max_samples : Int) : List String :=
  let image_ids := (filterImages image_info model_ts unlabeled_images).2
  if max_samples ≠ 0 then pySliceTo max_samples image_ids else image_ids

/-- Lines 98, 106-107: worker-count resolution — the request value (default
2), replaced by `max(1, cpu_count // 2)` when falsy, then capped at
`cpu_count`. -/
def resolveMaxWorkers (req_max_workers : Int) (cpu_count : Nat) : Int :=
  let max_workers := if req_max_workers ≠ 0 then req_max_workers
    else max 1 ((cpu_count : Int) / 2)
  min max_workers (cpu_count : Int)

/-- Lines 99-104: device-id resolution.  The result is only logged by the
source (device binding is the inference task's concern), so nothing
downstream consumes it. -/
def resolve_device_ids (multi_gpu : Bool) (multi_gpus : String) (device : String)
    (cuda_count : Nat) : List String :=
  let gpus := if multi_gpus = "" ∨ multi_gpus = "all" then
      (List.range cuda_count).map (fun i => toString i)
    else multi_gpus.splitOn ","
  if multi_gpu then gpus.map (fun id => "cuda:" ++ id) else [device]

/-- Lines 115-116: futures are awaited in submission order; the first
stored exception is re-raised. -/
def firstError : List (Except PyErr Unit) → Except PyErr Unit
  | [] => Except.ok ()
  | Except.error e :: _ => Except.error e
  | Except.ok _ :: rest => firstError rest

/-- Lines 111-116: the thread-pool branch.  All submitted tasks run to
completion (the `with` block's shutdown waits and does not cancel pending
futures), so every task's events are in the trace; the events are recorded
in submission order, one admissible linearization — the per-image event
sets are disjoint, so the properties proved below do not depend on the
interleaving.  The first exception in submission order is then re-raised. -/
def poolRun (run1 : String → List Event × Except PyErr Unit) (image_ids : List String) :
    List Event × Except PyErr Unit :=
  ((image_ids.map (fun image_id => (run1 image_id).1)).flatten,
    firstError (image_ids.map (fun image_id => (run1 image_id).2)))

/-- Lines 117-119: the sequential branch — tasks run in order in the calling
thread and the first exception aborts the loop (later images never start). -/
def seqRun (run1 : String → List Event × Except PyErr Unit) :
    List String → List Event × Except PyErr Unit
  | [] => ([], Except.ok ())
  | image_id :: rest =>
    let r := run1 image_id
    match r.2 with
    | Except.error e => (r.1, Except.error e)
    | Except.ok _ =>
      let r2 := seqRun run1 rest
      (r.1 ++ r2.1, r2.2)

/-- Line 109: the choice between the pool and the sequential branch. -/
def dispatchTasks (run1 : String → List Event × Except PyErr Unit)
    (image_ids : List String) (max_workers : Int) : List Event × Except PyErr Unit :=
  if image_ids.length > 1 ∧ (max_workers = 0 ∨ max_workers > 1) then poolRun run1 image_ids
  else seqRun run1 image_ids

/-- Lines 121-130: the summary is built and returned only when no dispatched
task raised; otherwise the exception propagates. -/
def scoreResult (task : Except PyErr Unit) (total skipped executed : Nat)
    (latency : ℚ) : Except PyErr Summary :=
  match task with
  | Except.error e => Except.error e
  | Except.ok _ => Except.ok ⟨total, skipped, executed, latency⟩

/-- The model version tag as resolved at the top of a `score` run. -/
def scoreModelTs (cfg : TaskCfg) (env : Env) : Int :=
  model_version_tag cfg.path env.file_exists env.file_mtime

/-- The effective simulation size of a `score` run (request value defaulted
by the constructor value, then floored to 2). -/
def scoreSimSize (cfg : TaskCfg) (req : ScoringRequest) : Int :=
  resolveSimulationSize (req.simulation_size.getD cfg.simulation_size)

/-- The work list a `score` run dispatches. -/
def scoreWorkList (cfg : TaskCfg) (req : ScoringRequest) (ds : Datastore) (env : Env) :
    List String :=
  computeWorkList ds.image_info (scoreModelTs cfg env) ds.unlabeled_images
    (req.max_samples.getD cfg.max_samples)

/-- The per-image task a `score` run submits (line 114 / line 119). -/
def scoreRun1 (cfg : TaskCfg) (inferFn : String → Nat → InferData) (req : ScoringRequest)
    (ds : Datastore) (env : Env) : String → List Event × Except PyErr Unit :=
  fun image_id => run_scoring cfg inferFn ds image_id (scoreSimSize cfg req)
    (scoreModelTs cfg env)

/-- Models `EpistemicScoringWithLabels.__call__` (lines 69-130), the scoring
orchestrator — `score(request, datastore)` in the spec's §6 naming.  The
`clear_cache` calls of lines 74 and 129 touch no state modelled here. -/
def score (cfg : TaskCfg) (inferFn : String → Nat → InferData) (req : ScoringRequest)
    (ds : Datastore) (env : Env) : List Event × Except PyErr Summary :=
  let _device_ids := resolve_device_ids (req.multi_gpu.getD false) (req.gpus.getD "all")
    (req.device.getD "cuda") env.cuda_count
  let task := dispatchTasks (scoreRun1 cfg inferFn req ds env) (scoreWorkList cfg req ds env)
    (resolveMaxWorkers ((req.max_workers.getD 2)) env.cpu_count)
  (warnList (req.simulation_size.getD cfg.simulation_size) ++ task.1,
    scoreResult task.2 ds.unlabeled_images.length
      (filterImages ds.image_info (scoreModelTs cfg env) ds.unlabeled_images).1
      (scoreWorkList cfg req ds env).length
      (round3 (env.t_end - env.t_start)))

/-! ### Concrete instances used by witnesses and counterexamples -/

/-- The constructor-default configuration: no model file, label key `"pred"`,
3-D task, `max_samples=0`, `simulation_size=5`, default metadata keys. -/
def cfgDefault : TaskCfg :=
  ⟨none, "pred", 3, 0, 5, "epistemic_entropy", "epistemic_ts"⟩

/-- A request mapping with no recognized keys set. -/
def reqEmpty : ScoringRequest := ⟨none, none, none, none, none, none⟩

/-- An environment with no files, 4 CPUs, no GPUs, and equal clock readings. -/
def envZero : Env := ⟨fun _ => false, fun _ => 0, 4, 0, 0, 0⟩

/-- An inference stub returning a non-dict (`None`) on every call. -/
def inferNone : String → Nat → InferData := fun _ _ => InferData.nonDict

/-- A small prediction volume. -/
def sampleVol : NpArray := ⟨[1, 1, 2], [1, 2]⟩

/-- An inference stub returning a well-formed prediction dict every call. -/
def inferPred : String → Nat → InferData :=
  fun _ _ => InferData.dictD [("pred", some sampleVol)]

/-- An inference stub that succeeds only on the first iteration. -/
def inferOneThenNone : String → Nat → InferData :=
  fun _ i => if i = 0 then InferData.dictD [("pred", some sampleVol)] else InferData.nonDict

/-- A datastore with the given unlabeled images and empty metadata. -/
def dsEmptyInfo (ids : List String) : Datastore := ⟨ids, fun _ => [], fun s => s⟩

/-- A datastore with one unlabeled image tagged `epistemic_ts = 1`. -/
def dsTagged : Datastore := ⟨["a"], fun _ => [("epistemic_ts", MetaVal.intV 1)], fun s => s⟩

/-! ### Helper lemmas -/

theorem run_scoring_result_isError (cfg : TaskCfg) (r : Except PyErr (List NpArray)) :
    ∃ e, run_scoring_result cfg r = Except.error e := by
  cases r with
  | error e => exact ⟨e, rfl⟩
  | ok l =>
    cases l with
    | nil => exact ⟨PyErr.valueError "need at least one array to stack", rfl⟩
    | cons a rest =>
      by_cases h : rest.all (fun b => b.shape == a.shape)
      · exact ⟨PyErr.nameError "ground_truth_label",
          by simp [run_scoring_result, npStack, h]⟩
      · exact ⟨PyErr.valueError "all input arrays must have the same shape",
          by simp [run_scoring_result, npStack, h]⟩

theorem run_scoring_isError (cfg : TaskCfg) (inferFn : String → Nat → InferData)
    (ds : Datastore) (image_id : String) (simulation_size model_ts : Int) :
    ∃ e, (run_scoring cfg inferFn ds image_id simulation_size model_ts).2
      = Except.error e :=
  run_scoring_result_isError cfg _

theorem simLoop_events (olk : String) (inferFn : String → Nat → InferData)
    (uri image_id : String) (l : List Nat) :
    ∀ ev ∈ (simLoop olk inferFn uri image_id l).1, ∃ i, ev = Event.inferCall image_id i := by
  induction l with
  | nil => intro ev h; simp [simLoop] at h
  | cons i rest ih =>
    intro ev h
    simp only [simLoop] at h
    cases hx : extractPred olk (inferFn uri i) with
    | error e =>
      rw [hx] at h
      simp at h
      exact ⟨i, h⟩
    | ok o =>
      cases o with
      | none =>
        rw [hx] at h
        simp at h
        rcases h with h | h
        · exact ⟨i, h⟩
        · exact ih ev h
      | some p =>
        rw [hx] at h
        simp at h
        rcases h with h | h
        · exact ⟨i, h⟩
        · exact ih ev h

theorem run_scoring_events (cfg : TaskCfg) (inferFn : String → Nat → InferData)
    (ds : Datastore) (image_id : String) (simulation_size model_ts : Int) :
    ∀ ev ∈ (run_scoring cfg inferFn ds image_id simulation_size model_ts).1,
      ∃ i, ev = Event.inferCall image_id i :=
  simLoop_events _ _ _ _ _

theorem seqRun_cons_error (run1 : String → List Event × Except PyErr Unit)
    (image_id : String) (rest : List String) (e : PyErr)
    (h : (run1 image_id).2 = Except.error e) :
    seqRun run1 (image_id :: rest) = ((run1 image_id).1, Except.error e) := by
  simp [seqRun, h]

theorem poolRun_snd_cons_error (run1 : String → List Event × Except PyErr Unit)
    (image_id : String) (rest : List String) (e : PyErr)
    (h : (run1 image_id).2 = Except.error e) :
    (poolRun run1 (image_id :: rest)).2 = Except.error e := by
  simp [poolRun, h, firstError]

theorem dispatchTasks_error (run1 : String → List Event × Except PyErr Unit)
    (ids : List String) (mw : Int)
    (hall : ∀ id, ∃ e, (run1 id).2 = Except.error e) (hne : ids ≠ []) :
    ∃ e, (dispatchTasks run1 ids mw).2 = Except.error e := by
  cases ids with
  | nil => exact absurd rfl hne
  | cons id rest =>
    obtain ⟨e, he⟩ := hall id
    unfold dispatchTasks
    split
    · exact ⟨e, poolRun_snd_cons_error run1 id rest e he⟩
    · exact ⟨e, by rw [seqRun_cons_error run1 id rest e he]⟩

theorem seqRun_events (run1 : String → List Event × Except PyErr Unit)
    (P : Event → Prop) (h : ∀ id, ∀ ev ∈ (run1 id).1, P ev) :
    ∀ ids : List String, ∀ ev ∈ (seqRun run1 ids).1, P ev := by
  intro ids
  induction ids with
  | nil => intro ev hev; simp [seqRun] at hev
  | cons id rest ih =>
    intro ev hev
    simp only [seqRun] at hev
    cases hr : (run1 id).2 with
    | error e =>
      rw [hr] at hev
      simp at hev
      exact h id ev hev
    | ok u =>
      rw [hr] at hev
      simp at hev
      rcases hev with hev | hev
      · exact h id ev hev
      · exact ih ev hev

theorem dispatchTasks_events (run1 : String → List Event × Except PyErr Unit)
    (ids : List String) (mw : Int) (P : Event → Prop)
    (h : ∀ id, ∀ ev ∈ (run1 id).1, P ev) :
    ∀ ev ∈ (dispatchTasks run1 ids mw).1, P ev := by
  intro ev hev
  unfold dispatchTasks at hev
  split at hev
  · simp only [poolRun, List.mem_flatten, List.mem_map] at hev
    obtain ⟨l, ⟨id, _, rfl⟩, hev⟩ := hev
    exact h id ev hev
  · exact seqRun_events run1 P h ids ev hev

theorem scoreResult_eq_ok (task : Except PyErr Unit) (total skipped executed : Nat)
    (latency : ℚ) (s : Summary)
    (h : scoreResult task total skipped executed latency = Except.ok s) :
    task = Except.ok () ∧ s = ⟨total, skipped, executed, latency⟩ := by
  cases task with
  | error e => simp [scoreResult] at h
  | ok u =>
    cases u
    refine ⟨rfl, ?_⟩
    simpa [scoreResult] using h.symm

theorem filterImages_snd (info : String → List (String × MetaVal)) (mts : Int)
    (l : List String) :
    (filterImages info mts l).2 = l.filter (fun id =>
      !(pyEqMeta (dictGet (info id) "epistemic_ts" (MetaVal.intV 0)) (MetaVal.intV mts))) := by
  induction l with
  | nil => rfl
  | cons a rest ih =>
    simp only [filterImages]
    cases h : pyEqMeta (dictGet (info a) "epistemic_ts" (MetaVal.intV 0)) (MetaVal.intV mts) <;>
      simp [h, ih, List.filter_cons]

theorem filterImages_count (info : String → List (String × MetaVal)) (mts : Int)
    (l : List String) :
    (filterImages info mts l).1 = l.countP (fun id =>
      pyEqMeta (dictGet (info id) "epistemic_ts" (MetaVal.intV 0)) (MetaVal.intV mts)) := by
  induction l with
  | nil => rfl
  | cons a rest ih =>
    simp only [filterImages]
    cases h : pyEqMeta (dictGet (info a) "epistemic_ts" (MetaVal.intV 0)) (MetaVal.intV mts) <;>
      simp [h, ih, List.countP_cons]

theorem filterImages_total (info : String → List (String × MetaVal)) (mts : Int)
    (l : List String) :
    (filterImages info mts l).1 + (filterImages info mts l).2.length = l.length := by
  induction l with
  | nil => rfl
  | cons a rest ih =>
    simp only [filterImages]
    cases h : pyEqMeta (dictGet (info a) "epistemic_ts" (MetaVal.intV 0)) (MetaVal.intV mts) <;>
      simp [h] <;> omega

theorem round3_nonneg (q : ℚ) (h : 0 ≤ q) : 0 ≤ round3 q := by
  unfold round3
  apply div_nonneg _ (by norm_num)
  have h2 : (0 : ℤ) ≤ round (q * 1000) := by
    rw [round_eq]
    apply Int.le_floor.mpr
    push_cast
    nlinarith
  exact_mod_cast h2

theorem score_trace_split (cfg : TaskCfg) (inferFn : String → Nat → InferData)
    (req : ScoringRequest) (ds : Datastore) (env : Env) :
    (score cfg inferFn req ds env).1
      = warnList (req.simulation_size.getD cfg.simulation_size)
        ++ (dispatchTasks (scoreRun1 cfg inferFn req ds env)
              (scoreWorkList cfg req ds env)
              (resolveMaxWorkers (req.max_workers.getD 2) env.cpu_count)).1 := rfl

theorem score_snd_eq (cfg : TaskCfg) (inferFn : String → Nat → InferData)
    (req : ScoringRequest) (ds : Datastore) (env : Env) :
    (score cfg inferFn req ds env).2
      = scoreResult
          (dispatchTasks (scoreRun1 cfg inferFn req ds env)
            (scoreWorkList cfg req ds env)
            (resolveMaxWorkers (req.max_workers.getD 2) env.cpu_count)).2
          ds.unlabeled_images.length
          (filterImages ds.image_info (scoreModelTs cfg env) ds.unlabeled_images).1
          (scoreWorkList cfg req ds env).length
          (round3 (env.t_end - env.t_start)) := rfl

theorem score_ok_workList_nil (cfg : TaskCfg) (inferFn : String → Nat → InferData)
    (req : ScoringRequest) (ds : Datastore) (env : Env) (s : Summary)
    (h : (score cfg inferFn req ds env).2 = Except.ok s) :
    scoreWorkList cfg req ds env = []
    ∧ s = ⟨ds.unlabeled_images.length,
        (filterImages ds.image_info (scoreModelTs cfg env) ds.unlabeled_images).1,
        (scoreWorkList cfg req ds env).length, round3 (env.t_end - env.t_start)⟩ := by
  rw [score_snd_eq] at h
  obtain ⟨htask, hs⟩ := scoreResult_eq_ok _ _ _ _ _ _ h
  constructor
  · by_contra hne
    obtain ⟨e, he⟩ := dispatchTasks_error (scoreRun1 cfg inferFn req ds env)
      (scoreWorkList cfg req ds env)
      (resolveMaxWorkers (req.max_workers.getD 2) env.cpu_count)
      (fun id => run_scoring_isError cfg inferFn ds id (scoreSimSize cfg req)
        (scoreModelTs cfg env)) hne
    rw [he] at htask
    exact Except.noConfusion htask
  · exact hs

theorem score_nil_ok (cfg : TaskCfg) (inferFn : String → Nat → InferData)
    (req : ScoringRequest) (ds : Datastore) (env : Env)
    (h : scoreWorkList cfg req ds env = []) :
    (score cfg inferFn req ds env).2
      = Except.ok ⟨ds.unlabeled_images.length,
          (filterImages ds.image_info (scoreModelTs cfg env) ds.unlabeled_images).1, 0,
          round3 (env.t_end - env.t_start)⟩ := by
  rw [score_snd_eq, h]
  simp [dispatchTasks, seqRun, scoreResult]

theorem take_len_append {α : Type} (l₁ l₂ : List α) : (l₁ ++ l₂).take l₁.length = l₁ := by
  induction l₁ with
  | nil => rfl
  | cons a t ih => simp [ih]

theorem drop_len_append {α : Type} (l₁ l₂ : List α) : (l₁ ++ l₂).drop l₁.length = l₂ := by
  induction l₁ with
  | nil => rfl
  | cons a t ih => simp [ih]

theorem chunkBy_append {α : Type} (m : Nat) (md rest : List α)
    (hlen : md.length = m) (hm : 0 < m) :
    chunkBy m (md ++ rest) = md :: chunkBy m rest := by
  cases md with
  | nil => simp at hlen; omega
  | cons x xs =>
    rw [List.cons_append, chunkBy, if_neg (by omega)]
    have h1 : (x :: (xs ++ rest)).take m = x :: xs := by
      rw [← List.cons_append, ← hlen, take_len_append]
    have h2 : (xs ++ rest).drop (m - 1) = rest := by
      have hx : xs.length = m - 1 := by
        simp only [List.length_cons] at hlen
        omega
      rw [← hx, drop_len_append]
    rw [h1, h2]

theorem chunkBy_flatten_replicate {α : Type} (m n : Nat) (md : List α)
    (hlen : md.length = m) (hm : 0 < m) :
    chunkBy m (List.replicate n md).flatten = List.replicate n md := by
  induction n with
  | zero => simp [chunkBy]
  | succ k ih =>
    rw [List.replicate_succ, List.flatten_cons, chunkBy_append m md _ hlen hm, ih]

theorem listMean_replicate (n : Nat) (c : ℚ) (hn : 0 < n) :
    listMean (List.replicate n c) = c := by
  unfold listMean
  rw [List.sum_replicate, List.length_replicate, nsmul_eq_mul]
  have h : (n : ℚ) ≠ 0 := Nat.cast_ne_zero.mpr (by omega)
  exact mul_div_cancel_left₀ c h

theorem sampleVariance_replicate (n : Nat) (c : ℚ) (hn : 2 ≤ n) :
    sampleVariance (List.replicate n c) = 0 := by
  unfold sampleVariance
  rw [List.length_replicate, if_neg (by omega), List.map_replicate,
    listMean_replicate n c (by omega)]
  simp

theorem applyThreshold_zero : applyThreshold 0 = 0 := by
  norm_num [applyThreshold]

theorem variance_volume_data (dimension : Nat) (a : NpArray) :
    (variance_volume dimension a).data = (varianceMetricArr a).data := by
  unfold variance_volume
  split <;> rfl

theorem varianceMetricArr_data_replicate (n : Nat) (ms : List Nat) (md : List ℚ)
    (hn : 2 ≤ n) (hm : ms.prod = md.length) (hpos : 0 < md.length) :
    (varianceMetricArr ⟨n :: ms, (List.replicate n md).flatten⟩).data
      = List.replicate md.length 0 := by
  unfold varianceMetricArr
  simp only [hm, chunkBy_flatten_replicate md.length n md rfl hpos, List.map_replicate]
  simp only [show ∀ c : ℚ, sampleVariance (List.replicate n c) = 0 from
    fun c => sampleVariance_replicate n c hn]
  simp only [applyThreshold_zero]
  apply List.eq_replicate_iff.mpr
  constructor
  · simp
  · intro b hb
    simp at hb
    exact hb.2

/-! ### Claim theorems -/

/-- Claim C1 (code_bug evidence): the spec requires exactly one
`update_image_info` call per scored image, but `run_scoring` always raises
(`NameError` on the undefined `ground_truth_label` at line 161 at the
latest) before reaching the update at line 176: its trace contains zero
metadata-update events for every input, and it never returns normally.  The
last conjunct evaluates the failing input (simulation_size 2, inference
returning a well-formed prediction dict every iteration). -/
theorem claim1_run_scoring_never_updates (cfg : TaskCfg)
    (inferFn : String → Nat → InferData) (ds : Datastore) (image_id : String)
    (simulation_size model_ts : Int) :
    ((run_scoring cfg inferFn ds image_id simulation_size model_ts).1.countP
      (fun ev => isUpdate ev)) = 0
    ∧ (∃ e, (run_scoring cfg inferFn ds image_id simulation_size model_ts).2
        = Except.error e)
    ∧ (run_scoring cfgDefault inferPred (dsEmptyInfo ["img1"]) "img1" 2 7).2
        = Except.error (PyErr.nameError "ground_truth_label") := by
  refine ⟨?_, run_scoring_isError _ _ _ _ _ _, rfl⟩
  rw [List.countP_eq_zero]
  intro ev hev
  obtain ⟨i, rfl⟩ := run_scoring_events cfg inferFn ds image_id simulation_size model_ts ev hev
  simp [isUpdate]

/-- Claim C4 (code_bug evidence): with `simulation_size = 2` and no successful
prediction, the code raises numpy's generic stacking `ValueError`, not an
explicit "insufficient ensemble" error; with exactly one successful
prediction it proceeds to stack and reduce the singleton ensemble (control
reaches the line-161 `NameError`, past the stack and the variance
reduction).  No "insufficient ensemble" guard exists on any path. -/
theorem claim4_no_insufficient_ensemble_error :
    (run_scoring cfgDefault inferNone (dsEmptyInfo ["img"]) "img" 2 1).2
      = Except.error (PyErr.valueError "need at least one array to stack")
    ∧ (run_scoring cfgDefault inferOneThenNone (dsEmptyInfo ["img"]) "img" 2 1).2
      = Except.error (PyErr.nameError "ground_truth_label") :=
  ⟨rfl, rfl⟩

/-- Claim C9: for every ensemble of size at least 2 whose members are all
identical, every element of the `variance_volume` output map is 0 (which is
within the 0.0005 thresholding epsilon), and the reducer is deterministic
(it is a pure function: equal inputs give equal outputs). -/
theorem claim9_variance_zero_on_identical (md : List ℚ) (ms : List Nat)
    (n dimension : Nat) (hn : 2 ≤ n) (hm : ms.prod = md.length)
    (hpos : 0 < md.length) :
    (variance_volume dimension ⟨n :: ms, (List.replicate n md).flatten⟩).data
      = List.replicate md.length 0
    ∧ variance_volume dimension ⟨n :: ms, (List.replicate n md).flatten⟩
      = variance_volume dimension ⟨n :: ms, (List.replicate n md).flatten⟩ := by
  refine ⟨?_, rfl⟩
  rw [variance_volume_data]
  exact varianceMetricArr_data_replicate n ms md hn hm hpos

/-- Witness for **C9** at a concrete identical ensemble of size 2. -/
theorem claim9_witness :
    (2 ≤ 2 ∧ [2].prod = [(1 : ℚ), 2].length ∧ 0 < [(1 : ℚ), 2].length)
    ∧ (variance_volume 3 ⟨2 :: [2], (List.replicate 2 [(1 : ℚ), 2]).flatten⟩).data
      = List.replicate [(1 : ℚ), 2].length 0 :=
  ⟨⟨by norm_num, by decide, by norm_num⟩,
    (claim9_variance_zero_on_identical [(1 : ℚ), 2] [2] 2 3 (by norm_num) (by decide)
      (by norm_num)).1⟩

/-- Claim C10 counterexample: a dict that maps the output label key to `None`
is treated as "no prediction" (soft-skipped, the loop continues to the next
iteration) even though the returned value *is* a dict — refuting "only when
the returned value is not a dict". -/
theorem claim10_counterexample :
    extractPred "pred" (InferData.dictD [("pred", none)]) = Except.ok none
    ∧ InferData.dictD [("pred", none)] ≠ InferData.nonDict
    ∧ (simLoop "pred" (fun _ _ => InferData.dictD [("pred", none)]) "u" "img" [0, 1]).1
      = [Event.inferCall "img" 0, Event.inferCall "img" 1] :=
  ⟨rfl, by decide, rfl⟩

/-- Claim C10 amended: an iteration yields "no prediction" (soft skip) iff the
inference result is not a dict or is a dict mapping the output label key to
`None`; a dict lacking the key raises `KeyError`, which propagates out of
`run_scoring` and aborts the whole image at that iteration. -/
theorem claim10_amended (k : String) :
    (∀ d, extractPred k d = Except.ok none ↔
      (d = InferData.nonDict ∨ ∃ m, d = InferData.dictD m ∧ alookup m k = some none))
    ∧ (∀ m, alookup m k = none →
      extractPred k (InferData.dictD m) = Except.error (PyErr.keyError k))
    ∧ (∀ (cfg : TaskCfg) (inferFn : String → Nat → InferData) (ds : Datastore)
        (image_id : String) (simulation_size model_ts : Int)
        (m : List (String × Option NpArray)),
      cfg.output_label_key = k →
      inferFn (ds.image_uri image_id) 0 = InferData.dictD m →
      alookup m k = none →
      2 ≤ simulation_size →
      run_scoring cfg inferFn ds image_id simulation_size model_ts
        = ([Event.inferCall image_id 0], Except.error (PyErr.keyError k))) := by
  refine ⟨?_, ?_, ?_⟩
  · intro d
    cases d with
    | nonDict => simp [extractPred]
    | dictD m =>
      cases halk : alookup m k with
      | none => simp [extractPred, halk]
      | some v =>
        cases v with
        | none => simp [extractPred, halk]
        | some p => simp [extractPred, halk]
  · intro m halk
    simp [extractPred, halk]
  · intro cfg inferFn ds image_id simulation_size model_ts m hk hinf halk hss
    have hsim : simLoop cfg.output_label_key inferFn (ds.image_uri image_id) image_id
        (List.range simulation_size.toNat)
        = ([Event.inferCall image_id 0], Except.error (PyErr.keyError k)) := by
      obtain ⟨j, hj⟩ : ∃ j, simulation_size.toNat = j + 1 :=
        ⟨simulation_size.toNat - 1, by omega⟩
      rw [hj, List.range_succ_eq_map]
      simp only [simLoop]
      rw [hk, hinf]
      simp [extractPred, halk]
    have hrs : run_scoring cfg inferFn ds image_id simulation_size model_ts
        = ((simLoop cfg.output_label_key inferFn (ds.image_uri image_id) image_id
            (List.range simulation_size.toNat)).1,
          run_scoring_result cfg
            (simLoop cfg.output_label_key inferFn (ds.image_uri image_id) image_id
              (List.range simulation_size.toNat)).2) := rfl
    rw [hrs, hsim]
    rfl

/-- Witness for the amended **C10**: a dict lacking the key aborts the image
with `KeyError` at iteration 0. -/
theorem claim10_amended_witness :
    alookup ([] : List (String × Option NpArray)) "pred" = none
    ∧ (2 : Int) ≤ 2
    ∧ run_scoring cfgDefault (fun _ _ => InferData.dictD []) (dsEmptyInfo ["img"])
        "img" 2 1
      = ([Event.inferCall "img" 0], Except.error (PyErr.keyError "pred")) := by
  refine ⟨rfl, by decide, ?_⟩
  exact (claim10_amended "pred").2.2 cfgDefault (fun _ _ => InferData.dictD [])
    (dsEmptyInfo ["img"]) "img" 2 1 [] rfl rfl rfl (by decide)

/-- Claim C2 counterexample: `max_samples = -1` is nonzero (hence truthy) and
the Python slice `[:-1]` truncates the work list, so with one eligible
unlabeled image the run returns a summary with `total = 1`, `skipped = 0`,
`executed = 0`: `skipped + executed ≠ total`. -/
theorem claim2_counterexample :
    (score cfgDefault inferNone ⟨some (-1), none, none, none, none, none⟩
      (dsEmptyInfo ["a"]) envZero).2
      = Except.ok ⟨1, 0, 0, round3 (0 - 0)⟩
    ∧ (0 : Nat) + 0 ≠ 1 :=
  ⟨rfl, by decide⟩

/-- Claim C2 amended: for every run of `score` that returns a summary, if the
resolved `max_samples` is nonnegative and the end clock reading is at least
the start one, then `skipped + executed = total` and `latency ≥ 0`.  (A
negative nonzero `max_samples` slices eligible images off the end of the
work list and can break the invariant.) -/
theorem claim2_amended (cfg : TaskCfg) (inferFn : String → Nat → InferData)
    (req : ScoringRequest) (ds : Datastore) (env : Env) (s : Summary)
    (hms : 0 ≤ req.max_samples.getD cfg.max_samples)
    (ht : env.t_start ≤ env.t_end)
    (h : (score cfg inferFn req ds env).2 = Except.ok s) :
    s.skipped + s.executed = s.total ∧ 0 ≤ s.latency := by
  obtain ⟨hwl, hs⟩ := score_ok_workList_nil cfg inferFn req ds env s h
  have hfil : (filterImages ds.image_info (scoreModelTs cfg env) ds.unlabeled_images).2
      = [] := by
    unfold scoreWorkList computeWorkList at hwl
    split at hwl
    · unfold pySliceTo at hwl
      rw [if_pos hms] at hwl
      rcases List.take_eq_nil_iff.mp hwl with h1 | h1
      · exfalso
        rename_i hms0
        omega
      · exact h1
    · exact hwl
  subst hs
  constructor
  · have htot := filterImages_total ds.image_info (scoreModelTs cfg env) ds.unlabeled_images
    rw [hfil] at htot
    simp only [List.length_nil, Nat.add_zero] at htot
    simp only [hwl, List.length_nil, Nat.add_zero]
    exact htot
  · exact round3_nonneg _ (by linarith)

/-- Witness for the amended **C2** on an empty datastore. -/
theorem claim2_amended_witness :
    (0 : Int) ≤ reqEmpty.max_samples.getD cfgDefault.max_samples
    ∧ envZero.t_start ≤ envZero.t_end
    ∧ (score cfgDefault inferNone reqEmpty (dsEmptyInfo []) envZero).2
      = Except.ok ⟨0, 0, 0, round3 (0 - 0)⟩
    ∧ ((0 : Nat) + 0 = 0 ∧ (0 : ℚ) ≤ round3 (0 - 0)) := by
  refine ⟨by decide, le_refl 0, rfl, ?_⟩
  have h := claim2_amended cfgDefault inferNone reqEmpty (dsEmptyInfo []) envZero
    ⟨0, 0, 0, round3 (0 - 0)⟩ (by decide) (le_refl 0) rfl
  simpa using h

/-- Claim C3 counterexample: a model file that exists with modification time 0
(the Unix epoch) yields version tag `int(0.0) = 0`, which equals the
`.get("epistemic_ts", 0)` default for an image with *absent* timestamp
metadata — so the image is counted as skipped and kept off the work list,
refuting "an image whose stored timestamp ... is absent is always placed on
the work list". -/
theorem claim3_counterexample :
    model_version_tag (some "model.pt") (fun _ => true) (fun _ => 0) = 0
    ∧ alookup ((fun _ => ([] : List (String × MetaVal))) "a") "epistemic_ts" = none
    ∧ (filterImages (fun _ => []) 0 ["a"]).2 = []
    ∧ (filterImages (fun _ => []) 0 ["a"]).1 = 1 := by
  refine ⟨?_, rfl, by decide, by decide⟩
  show (if "model.pt" ≠ "" ∧ (fun (_ : String) => true) "model.pt" = true
    then pyInt ((fun (_ : String) => (0 : ℚ)) "model.pt") else 1) = 0
  rw [if_pos ⟨by decide, rfl⟩]
  norm_num [pyInt]

/-- Claim C3 amended: an image is skipped iff the value stored at the literal
key `"epistemic_ts"` (default `0` when absent) compares Python-equal to the
model tag, and the filtered list preserves enumeration order; an image with
*absent* timestamp metadata is always placed on the pre-truncation work
list provided the model tag is nonzero (a tag of 0, arising from a model
file whose mtime is the epoch, collides with the absent-value default). -/
theorem claim3_amended (info : String → List (String × MetaVal)) (model_ts : Int)
    (l : List String) :
    (filterImages info model_ts l).2 = l.filter (fun id =>
      !(pyEqMeta (dictGet (info id) "epistemic_ts" (MetaVal.intV 0))
        (MetaVal.intV model_ts)))
    ∧ (filterImages info model_ts l).1 = l.countP (fun id =>
      pyEqMeta (dictGet (info id) "epistemic_ts" (MetaVal.intV 0))
        (MetaVal.intV model_ts))
    ∧ (model_ts ≠ 0 → ∀ id ∈ l, alookup (info id) "epistemic_ts" = none →
      id ∈ (filterImages info model_ts l).2) := by
  refine ⟨filterImages_snd info model_ts l, filterImages_count info model_ts l, ?_⟩
  intro hmts id hid habs
  rw [filterImages_snd]
  apply List.mem_filter.mpr
  refine ⟨hid, ?_⟩
  simp [dictGet, habs, pyEqMeta, beq_iff_eq]
  omega

/-- Witness for the amended **C3**: under tag 1, an image with absent
timestamp metadata is on the work list. -/
theorem claim3_amended_witness :
    (1 : Int) ≠ 0 ∧ "a" ∈ ["a"]
    ∧ alookup ((fun _ => ([] : List (String × MetaVal))) "a") "epistemic_ts" = none
    ∧ "a" ∈ (filterImages (fun _ => []) 1 ["a"]).2 := by
  refine ⟨by decide, by decide, rfl, ?_⟩
  exact (claim3_amended (fun _ => []) 1 ["a"]).2.2 (by decide) "a" (by decide) rfl

/-- Claim C5 counterexample: `max_samples = -1` is nonzero, but the work list
is not "the first `-1` images" of the filtered list — Python's `[:-1]`
drops the *last* image instead. -/
theorem claim5_counterexample :
    ((-1 : Int) ≠ 0)
    ∧ computeWorkList (fun _ => []) 1 ["a", "b"] (-1) = ["a"]
    ∧ computeWorkList (fun _ => []) 1 ["a", "b"] (-1)
      ≠ ((filterImages (fun _ => []) 1 ["a", "b"]).2).take (Int.toNat (-1)) := by
  decide

/-- Claim C5 amended: a positive `max_samples` keeps exactly the first
`max_samples` images of the filtered list in enumeration order;
`max_samples = 0` keeps the whole filtered list; a negative nonzero
`max_samples` truncates from the end (Python slice semantics). -/
theorem claim5_amended (info : String → List (String × MetaVal)) (model_ts : Int)
    (unlabeled : List String) (max_samples : Int) :
    (0 < max_samples → computeWorkList info model_ts unlabeled max_samples
      = ((filterImages info model_ts unlabeled).2).take max_samples.toNat)
    ∧ (max_samples = 0 → computeWorkList info model_ts unlabeled max_samples
      = (filterImages info model_ts unlabeled).2)
    ∧ (max_samples < 0 → computeWorkList info model_ts unlabeled max_samples
      = ((filterImages info model_ts unlabeled).2).take
        ((((filterImages info model_ts unlabeled).2).length : Int) + max_samples).toNat) := by
  refine ⟨?_, ?_, ?_⟩ <;> intro h <;> unfold computeWorkList pySliceTo
  · rw [if_pos (by omega : max_samples ≠ 0), if_pos (by omega : 0 ≤ max_samples)]
  · rw [if_neg (by omega : ¬max_samples ≠ 0)]
  · rw [if_pos (by omega : max_samples ≠ 0), if_neg (by omega : ¬0 ≤ max_samples)]

/-- Witness for the amended **C5**: 5 eligible images with `max_samples = 2`
yield exactly the first two. -/
theorem claim5_amended_witness :
    (0 : Int) < 2
    ∧ computeWorkList (fun _ => []) 1 ["a", "b", "c", "d", "e"] 2
      = ((filterImages (fun _ => []) 1 ["a", "b", "c", "d", "e"]).2).take (2 : Int).toNat
    ∧ computeWorkList (fun _ => []) 1 ["a", "b", "c", "d", "e"] 2 = ["a", "b"] := by
  refine ⟨by decide, ?_, by decide⟩
  exact (claim5_amended (fun _ => []) 1 ["a", "b", "c", "d", "e"] 2).1 (by decide)

/-- Claim C6: when the resolved `simulation_size` is below 2, the effective
value passed to every per-image task (`scoreSimSize`, applied by
`scoreRun1` to each dispatched image) is exactly 2, the warning is logged
exactly once per `score` call and precedes every inference event in the
trace, and the correction alone never raises (with nothing to dispatch the
run still returns a summary). -/
theorem claim6_sim_size_correction (cfg : TaskCfg) (inferFn : String → Nat → InferData)
    (req : ScoringRequest) (ds : Datastore) (env : Env)
    (h : req.simulation_size.getD cfg.simulation_size < 2) :
    scoreSimSize cfg req = 2
    ∧ ((score cfg inferFn req ds env).1.countP (fun ev => isWarn ev)) = 1
    ∧ (score cfg inferFn req ds env).1.head? = some Event.warnSimSize
    ∧ (scoreWorkList cfg req ds env = [] →
      ∃ s, (score cfg inferFn req ds env).2 = Except.ok s) := by
  have hwarn : warnList (req.simulation_size.getD cfg.simulation_size)
      = [Event.warnSimSize] := by
    unfold warnList
    rw [if_pos h]
  have hin : ∀ ev ∈ (dispatchTasks (scoreRun1 cfg inferFn req ds env)
      (scoreWorkList cfg req ds env)
      (resolveMaxWorkers (req.max_workers.getD 2) env.cpu_count)).1,
      ∃ img i, ev = Event.inferCall img i := by
    apply dispatchTasks_events
    intro id ev hev
    obtain ⟨i, rfl⟩ := run_scoring_events cfg inferFn ds id (scoreSimSize cfg req)
      (scoreModelTs cfg env) ev hev
    exact ⟨id, i, rfl⟩
  refine ⟨?_, ?_, ?_, ?_⟩
  · unfold scoreSimSize resolveSimulationSize
    rw [if_pos h]
  · rw [score_trace_split, List.countP_append, hwarn]
    have hz : ((dispatchTasks (scoreRun1 cfg inferFn req ds env)
        (scoreWorkList cfg req ds env)
        (resolveMaxWorkers (req.max_workers.getD 2) env.cpu_count)).1.countP
          (fun ev => isWarn ev)) = 0 := by
      rw [List.countP_eq_zero]
      intro ev hev
      obtain ⟨img, i, rfl⟩ := hin ev hev
      simp [isWarn]
    rw [hz]
    simp [isWarn]
  · rw [score_trace_split, hwarn]
    rfl
  · intro hwl
    exact ⟨_, score_nil_ok cfg inferFn req ds env hwl⟩

/-- Witness for **C6** with `simulation_size = 1` in the request. -/
theorem claim6_witness :
    ((⟨none, some 1, none, none, none, none⟩ : ScoringRequest).simulation_size.getD
      cfgDefault.simulation_size < 2)
    ∧ scoreSimSize cfgDefault ⟨none, some 1, none, none, none, none⟩ = 2
    ∧ ((score cfgDefault inferNone ⟨none, some 1, none, none, none, none⟩
        (dsEmptyInfo []) envZero).1.countP (fun ev => isWarn ev)) = 1
    ∧ (score cfgDefault inferNone ⟨none, some 1, none, none, none, none⟩
        (dsEmptyInfo []) envZero).1.head? = some Event.warnSimSize
    ∧ ∃ s, (score cfgDefault inferNone ⟨none, some 1, none, none, none, none⟩
        (dsEmptyInfo []) envZero).2 = Except.ok s := by
  have h := claim6_sim_size_correction cfgDefault inferNone
    ⟨none, some 1, none, none, none, none⟩ (dsEmptyInfo []) envZero (by decide)
  exact ⟨by decide, h.1, h.2.1, h.2.2.1, h.2.2.2 (by decide)⟩

/-- Claim C7: the model version tag equals the truncated mtime of the model
file when the path is set (non-empty) and the file exists, and the sentinel
1 when the path is unset/empty or the file is missing; a missing model file
is never an error — with tag 1, a run over images already tagged 1 returns
a summary skipping all of them. -/
theorem claim7_model_tag (cfg : TaskCfg) (inferFn : String → Nat → InferData)
    (req : ScoringRequest) (ds : Datastore) (env : Env) :
    (∀ f, cfg.path = some f → f ≠ "" → env.file_exists f = true →
      scoreModelTs cfg env = pyInt (env.file_mtime f))
    ∧ (cfg.path = none → scoreModelTs cfg env = 1)
    ∧ (∀ f, cfg.path = some f → f = "" ∨ env.file_exists f = false →
      scoreModelTs cfg env = 1)
    ∧ (cfg.path = none →
      (∀ id ∈ ds.unlabeled_images,
        dictGet (ds.image_info id) "epistemic_ts" (MetaVal.intV 0) = MetaVal.intV 1) →
      (score cfg inferFn req ds env).2
        = Except.ok ⟨ds.unlabeled_images.length, ds.unlabeled_images.length, 0,
          round3 (env.t_end - env.t_start)⟩) := by
  refine ⟨?_, ?_, ?_, ?_⟩
  · intro f hpath hne hex
    unfold scoreModelTs model_version_tag
    rw [hpath]
    show (if f ≠ "" ∧ env.file_exists f = true then pyInt (env.file_mtime f) else 1)
      = pyInt (env.file_mtime f)
    rw [if_pos ⟨hne, hex⟩]
  · intro hpath
    unfold scoreModelTs model_version_tag
    rw [hpath]
  · intro f hpath hcase
    unfold scoreModelTs model_version_tag
    rw [hpath]
    show (if f ≠ "" ∧ env.file_exists f = true then pyInt (env.file_mtime f) else 1) = 1
    rcases hcase with rfl | hex
    · rw [if_neg (fun hc => hc.1 rfl)]
    · rw [if_neg (fun hc => by
        have h2 := hc.2
        rw [hex] at h2
        exact Bool.false_ne_true h2)]
  · intro hpath hall
    have hmts : scoreModelTs cfg env = 1 := by
      unfold scoreModelTs model_version_tag
      rw [hpath]
    have hfil2 : (filterImages ds.image_info (scoreModelTs cfg env)
        ds.unlabeled_images).2 = [] := by
      rw [filterImages_snd, List.filter_eq_nil_iff]
      intro id hid
      rw [hall id hid, hmts]
      simp [pyEqMeta]
    have hfil1 : (filterImages ds.image_info (scoreModelTs cfg env)
        ds.unlabeled_images).1 = ds.unlabeled_images.length := by
      have htot := filterImages_total ds.image_info (scoreModelTs cfg env)
        ds.unlabeled_images
      rw [hfil2] at htot
      simpa using htot
    have hwl : scoreWorkList cfg req ds env = [] := by
      unfold scoreWorkList computeWorkList
      rw [hfil2]
      simp [pySliceTo]
    rw [score_nil_ok cfg inferFn req ds env hwl, hfil1]

/-- Witness for **C7**: absent model path gives tag 1 and a run over a
datastore whose single image is tagged 1 skips it. -/
theorem claim7_witness :
    cfgDefault.path = none
    ∧ (∀ id ∈ dsTagged.unlabeled_images,
      dictGet (dsTagged.image_info id) "epistemic_ts" (MetaVal.intV 0) = MetaVal.intV 1)
    ∧ scoreModelTs cfgDefault envZero = 1
    ∧ (score cfgDefault inferNone reqEmpty dsTagged envZero).2
      = Except.ok ⟨1, 1, 0, round3 (0 - 0)⟩ := by
  have h := claim7_model_tag cfgDefault inferNone reqEmpty dsTagged envZero
  refine ⟨rfl, by decide, h.2.1 rfl, ?_⟩
  exact h.2.2.2 rfl (by decide)

/-- Claim C8: if some dispatched per-image task raises, `score` does not
return a summary — the exception propagates — and, in the thread-pool
branch, every dispatched task's events are still in the trace (all
submitted futures are awaited; siblings are not cancelled). -/
theorem claim8_failure_propagation (cfg : TaskCfg) (inferFn : String → Nat → InferData)
    (req : ScoringRequest) (ds : Datastore) (env : Env)
    (h : ∃ id ∈ scoreWorkList cfg req ds env,
      ∃ e, (scoreRun1 cfg inferFn req ds env id).2 = Except.error e) :
    (∃ e, (score cfg inferFn req ds env).2 = Except.error e)
    ∧ ((scoreWorkList cfg req ds env).length > 1 ∧
        (resolveMaxWorkers (req.max_workers.getD 2) env.cpu_count = 0 ∨
          resolveMaxWorkers (req.max_workers.getD 2) env.cpu_count > 1) →
      ∀ id ∈ scoreWorkList cfg req ds env,
        ∀ ev ∈ (scoreRun1 cfg inferFn req ds env id).1,
          ev ∈ (score cfg inferFn req ds env).1) := by
  obtain ⟨id0, hid0, _, _⟩ := h
  have hne : scoreWorkList cfg req ds env ≠ [] := by
    intro hnil
    rw [hnil] at hid0
    exact absurd hid0 (List.not_mem_nil id0)
  obtain ⟨e, he⟩ := dispatchTasks_error (scoreRun1 cfg inferFn req ds env)
    (scoreWorkList cfg req ds env)
    (resolveMaxWorkers (req.max_workers.getD 2) env.cpu_count)
    (fun id => run_scoring_isError cfg inferFn ds id (scoreSimSize cfg req)
      (scoreModelTs cfg env)) hne
  refine ⟨⟨e, ?_⟩, ?_⟩
  · rw [score_snd_eq, he]
    rfl
  · intro hcond id hid ev hev
    rw [score_trace_split, List.mem_append]
    right
    unfold dispatchTasks
    rw [if_pos hcond]
    simp only [poolRun, List.mem_flatten]
    exact ⟨(scoreRun1 cfg inferFn req ds env id).1,
      List.mem_map_of_mem _ hid, hev⟩

/-- Witness for **C8**: two eligible images, default worker resolution
(pool branch); the first task's exception propagates and the second image's
inference events are still in the trace. -/
theorem claim8_witness :
    ("a" ∈ scoreWorkList cfgDefault reqEmpty (dsEmptyInfo ["a", "b"]) envZero
      ∧ (scoreRun1 cfgDefault inferNone reqEmpty (dsEmptyInfo ["a", "b"]) envZero "a").2
        = Except.error (PyErr.valueError "need at least one array to stack"))
    ∧ (∃ e, (score cfgDefault inferNone reqEmpty (dsEmptyInfo ["a", "b"]) envZero).2
      = Except.error e)
    ∧ Event.inferCall "b" 0
      ∈ (score cfgDefault inferNone reqEmpty (dsEmptyInfo ["a", "b"]) envZero).1 := by
  have h := claim8_failure_propagation cfgDefault inferNone reqEmpty
    (dsEmptyInfo ["a", "b"]) envZero
    ⟨"a", by decide, PyErr.valueError "need at least one array to stack", rfl⟩
  refine ⟨⟨by decide, rfl⟩, h.1, ?_⟩
  apply h.2 (by decide) "b" (by decide)
  decide

